import Mathlib

/-!
Verification of `research/gbp_dev/gameboy_printer_protocol.h` from the
arduino-gameboy-printer-emulator repository.

The header defines protocol constants for the Game Boy Printer serial link,
an 8-flag printer status record, bit-manipulation macros, and one pure
function `gbp_status_byte` packing the record into its wire-format byte.

Machine bytes are modelled as `Nat` values below 256; shifts and bitwise
operations use Lean's `Nat` bitwise operators, which agree with the C
unsigned semantics on these in-range values.
-/

namespace GbpProtocol

/-- Sync word first byte: `#define GBP_SYNC_WORD_0 0x88`. -/
def GBP_SYNC_WORD_0 : Nat := 0x88

/-- Sync word second byte: `#define GBP_SYNC_WORD_1 0x33`. -/
def GBP_SYNC_WORD_1 : Nat := 0x33

/-- Combined sync word: `#define GBP_SYNC_WORD 0x8833`. -/
def GBP_SYNC_WORD : Nat := 0x8833

/-- Command byte: `#define GBP_COMMAND_INIT 0x01`. -/
def GBP_COMMAND_INIT : Nat := 0x01

/-- Command byte: `#define GBP_COMMAND_PRINT 0x02`. -/
def GBP_COMMAND_PRINT : Nat := 0x02

/-- Command byte: `#define GBP_COMMAND_DATA 0x04`. -/
def GBP_COMMAND_DATA : Nat := 0x04

/-- Command byte: `#define GBP_COMMAND_BREAK 0x08`. -/
def GBP_COMMAND_BREAK : Nat := 0x08

/-- Command byte: `#define GBP_COMMAND_INQUIRY 0x0F`. -/
def GBP_COMMAND_INQUIRY : Nat := 0x0F

/-- Compression flag: `#define GBP_COMPRESSION_DISABLED 0x00`. -/
def GBP_COMPRESSION_DISABLED : Nat := 0x00

/-- Compression flag: `#define GBP_COMPRESSION_ENABLED 0x01`. -/
def GBP_COMPRESSION_ENABLED : Nat := 0x01

/-- Device ID byte: `#define GBP_DEVICE_ID 0x81`. -/
def GBP_DEVICE_ID : Nat := 0x81

/-- Print instruction payload size: `#define GBP_PRINT_INSTRUCT_PAYLOAD_SIZE 4`. -/
def GBP_PRINT_INSTRUCT_PAYLOAD_SIZE : Nat := 4

/-- Payload field index: `#define GBP_PRINT_INSTRUCT_INDEX_NUM_OF_SHEETS 0`. -/
def GBP_PRINT_INSTRUCT_INDEX_NUM_OF_SHEETS : Nat := 0

/-- Payload field index: `#define GBP_PRINT_INSTRUCT_INDEX_NUM_OF_LINEFEED 1`. -/
def GBP_PRINT_INSTRUCT_INDEX_NUM_OF_LINEFEED : Nat := 1

/-- Payload field index: `#define GBP_PRINT_INSTRUCT_INDEX_PALETTE_VALUE 2`. -/
def GBP_PRINT_INSTRUCT_INDEX_PALETTE_VALUE : Nat := 2

/-- Payload field index: `#define GBP_PRINT_INSTRUCT_INDEX_PRINT_DENSITY 3`. -/
def GBP_PRINT_INSTRUCT_INDEX_PRINT_DENSITY : Nat := 3

/-- Status bit position: `#define GBP_STATUS_BIT_LOWBAT 7` (Battery Too Low). -/
def GBP_STATUS_BIT_LOWBAT : Nat := 7

/-- Status bit position: `#define GBP_STATUS_BIT_ER2 6` (Other Error). -/
def GBP_STATUS_BIT_ER2 : Nat := 6

/-- Status bit position: `#define GBP_STATUS_BIT_ER1 5` (Paper Jam). -/
def GBP_STATUS_BIT_ER1 : Nat := 5

/-- Status bit position: `#define GBP_STATUS_BIT_ER0 4` (Packet Error). -/
def GBP_STATUS_BIT_ER0 : Nat := 4

/-- Status bit position: `#define GBP_STATUS_BIT_UNTRAN 3` (Unprocessed Data). -/
def GBP_STATUS_BIT_UNTRAN : Nat := 3

/-- Status bit position: `#define GBP_STATUS_BIT_FULL 2` (Image Data Full). -/
def GBP_STATUS_BIT_FULL : Nat := 2

/-- Status bit position: `#define GBP_STATUS_BIT_BUSY 1` (Printer Busy). -/
def GBP_STATUS_BIT_BUSY : Nat := 1

/-- Status bit position: `#define GBP_STATUS_BIT_SUM 0` (Checksum Error). -/
def GBP_STATUS_BIT_SUM : Nat := 0

/-- Status mask: `#define GBP_STATUS_MASK_LOWBAT (1<<7)`. -/
def GBP_STATUS_MASK_LOWBAT : Nat := 1 <<< 7

/-- Status mask: `#define GBP_STATUS_MASK_ER2 (1<<6)`. -/
def GBP_STATUS_MASK_ER2 : Nat := 1 <<< 6

/-- Status mask: `#define GBP_STATUS_MASK_ER1 (1<<5)`. -/
def GBP_STATUS_MASK_ER1 : Nat := 1 <<< 5

/-- Status mask: `#define GBP_STATUS_MASK_ER0 (1<<4)`. -/
def GBP_STATUS_MASK_ER0 : Nat := 1 <<< 4

/-- Status mask: `#define GBP_STATUS_MASK_UNTRAN (1<<3)`. -/
def GBP_STATUS_MASK_UNTRAN : Nat := 1 <<< 3

/-- Status mask: `#define GBP_STATUS_MASK_FULL (1<<2)`. -/
def GBP_STATUS_MASK_FULL : Nat := 1 <<< 2

/-- Status mask: `#define GBP_STATUS_MASK_BUSY (1<<1)`. -/
def GBP_STATUS_MASK_BUSY : Nat := 1 <<< 1

/-- Status mask: `#define GBP_STATUS_MASK_SUM (1<<0)`. -/
def GBP_STATUS_MASK_SUM : Nat := 1 <<< 0

/-- Macro `gpb_setBit(X,BITPOS) = (X | (1 << BITPOS))`. -/
def gpb_setBit (X BITPOS : Nat) : Nat := X ||| (1 <<< BITPOS)

/-- Macro `gpb_unsetBit(X,BITPOS) = (X & (~(1 << BITPOS)))`.
The C complement `~` acts on the target's fixed-width `int`; it is modelled
here at 16 bits (the AVR `int` width).  For the in-range operands used by
this header (`X < 256`, `BITPOS < 8`) the result is independent of the
chosen width, as any width of at least 8 bits gives the same byte. -/
def gpb_unsetBit (X BITPOS : Nat) : Nat := X &&& (0xFFFF ^^^ (1 <<< BITPOS))

/-- Macro `gpb_getBit(X,BITPOS) = ((X & (1 << BITPOS)) > 0)`; the C
comparison yields the `int` 1 when true and 0 when false. -/
def gpb_getBit (X BITPOS : Nat) : Nat := if (X &&& (1 <<< BITPOS)) > 0 then 1 else 0

/-- Macro `gpb_status_bit_update_low_battery(X,SET)`: assigns to `X` the value
`SET ? gpb_setBit(X, GBP_STATUS_BIT_LOWBAT) : gpb_unsetBit(X, GBP_STATUS_BIT_LOWBAT)`;
modelled as the function computing the assigned value. -/
def gpb_status_bit_update_low_battery (X : Nat) (SET : Bool) : Nat :=
  if SET then gpb_setBit X GBP_STATUS_BIT_LOWBAT else gpb_unsetBit X GBP_STATUS_BIT_LOWBAT

/-- Macro `gpb_status_bit_update_other_error(X,SET)`, modelled as the assigned value. -/
def gpb_status_bit_update_other_error (X : Nat) (SET : Bool) : Nat :=
  if SET then gpb_setBit X GBP_STATUS_BIT_ER2 else gpb_unsetBit X GBP_STATUS_BIT_ER2

/-- Macro `gpb_status_bit_update_paper_jam(X,SET)`, modelled as the assigned value. -/
def gpb_status_bit_update_paper_jam (X : Nat) (SET : Bool) : Nat :=
  if SET then gpb_setBit X GBP_STATUS_BIT_ER1 else gpb_unsetBit X GBP_STATUS_BIT_ER1

/-- Macro `gpb_status_bit_update_packet_error(X,SET)`, modelled as the assigned value. -/
def gpb_status_bit_update_packet_error (X : Nat) (SET : Bool) : Nat :=
  if SET then gpb_setBit X GBP_STATUS_BIT_ER0 else gpb_unsetBit X GBP_STATUS_BIT_ER0

/-- Macro `gpb_status_bit_update_unprocessed_data(X,SET)`, modelled as the assigned value. -/
def gpb_status_bit_update_unprocessed_data (X : Nat) (SET : Bool) : Nat :=
  if SET then gpb_setBit X GBP_STATUS_BIT_UNTRAN else gpb_unsetBit X GBP_STATUS_BIT_UNTRAN

/-- Macro `gpb_status_bit_update_print_buffer_full(X,SET)`, modelled as the assigned value. -/
def gpb_status_bit_update_print_buffer_full (X : Nat) (SET : Bool) : Nat :=
  if SET then gpb_setBit X GBP_STATUS_BIT_FULL else gpb_unsetBit X GBP_STATUS_BIT_FULL

/-- Macro `gpb_status_bit_update_printer_busy(X,SET)`, modelled as the assigned value. -/
def gpb_status_bit_update_printer_busy (X : Nat) (SET : Bool) : Nat :=
  if SET then gpb_setBit X GBP_STATUS_BIT_BUSY else gpb_unsetBit X GBP_STATUS_BIT_BUSY

/-- Macro `gpb_status_bit_update_checksum_error(X,SET)`, modelled as the assigned value. -/
def gpb_status_bit_update_checksum_error (X : Nat) (SET : Bool) : Nat :=
  if SET then gpb_setBit X GBP_STATUS_BIT_SUM else gpb_unsetBit X GBP_STATUS_BIT_SUM

/-- Macro `gpb_status_bit_getbit_low_battery(X) = gpb_getBit(X, GBP_STATUS_BIT_LOWBAT)`. -/
def gpb_status_bit_getbit_low_battery (X : Nat) : Nat := gpb_getBit X GBP_STATUS_BIT_LOWBAT

/-- Macro `gpb_status_bit_getbit_other_error(X) = gpb_getBit(X, GBP_STATUS_BIT_ER2)`. -/
def gpb_status_bit_getbit_other_error (X : Nat) : Nat := gpb_getBit X GBP_STATUS_BIT_ER2

/-- Macro `gpb_status_bit_getbit_paper_jam(X) = gpb_getBit(X, GBP_STATUS_BIT_ER1)`. -/
def gpb_status_bit_getbit_paper_jam (X : Nat) : Nat := gpb_getBit X GBP_STATUS_BIT_ER1

/-- Macro `gpb_status_bit_getbit_packet_error(X) = gpb_getBit(X, GBP_STATUS_BIT_ER0)`. -/
def gpb_status_bit_getbit_packet_error (X : Nat) : Nat := gpb_getBit X GBP_STATUS_BIT_ER0

/-- Macro `gpb_status_bit_getbit_unprocessed_data(X) = gpb_getBit(X, GBP_STATUS_BIT_UNTRAN)`. -/
def gpb_status_bit_getbit_unprocessed_data (X : Nat) : Nat := gpb_getBit X GBP_STATUS_BIT_UNTRAN

/-- Macro `gpb_status_bit_getbit_print_buffer_full(X) = gpb_getBit(X, GBP_STATUS_BIT_FULL)`. -/
def gpb_status_bit_getbit_print_buffer_full (X : Nat) : Nat := gpb_getBit X GBP_STATUS_BIT_FULL

/-- Macro `gpb_status_bit_getbit_printer_busy(X) = gpb_getBit(X, GBP_STATUS_BIT_BUSY)`. -/
def gpb_status_bit_getbit_printer_busy (X : Nat) : Nat := gpb_getBit X GBP_STATUS_BIT_BUSY

/-- Macro `gpb_status_bit_getbit_checksum_error(X) = gpb_getBit(X, GBP_STATUS_BIT_SUM)`. -/
def gpb_status_bit_getbit_checksum_error (X : Nat) : Nat := gpb_getBit X GBP_STATUS_BIT_SUM

/-- The C struct `gbp_printer_status_t`: eight independent boolean flags,
in the source's field order. -/
structure gbp_printer_status_t where
  low_battery : Bool
  paper_jam : Bool
  other_error : Bool
  packet_error : Bool
  unprocessed_data : Bool
  print_buffer_full : Bool
  printer_busy : Bool
  checksum_error : Bool
deriving DecidableEq

/-- The inline function `gbp_status_byte`: packs the status record into the
wire-format status byte, ORing each flag shifted to its bit position, in the
source's order. -/
def gbp_status_byte (printer_status : gbp_printer_status_t) : Nat :=
  ((if printer_status.low_battery then 1 else 0) <<< GBP_STATUS_BIT_LOWBAT)
  ||| ((if printer_status.other_error then 1 else 0) <<< GBP_STATUS_BIT_ER2)
  ||| ((if printer_status.paper_jam then 1 else 0) <<< GBP_STATUS_BIT_ER1)
  ||| ((if printer_status.packet_error then 1 else 0) <<< GBP_STATUS_BIT_ER0)
  ||| ((if printer_status.unprocessed_data then 1 else 0) <<< GBP_STATUS_BIT_UNTRAN)
  ||| ((if printer_status.print_buffer_full then 1 else 0) <<< GBP_STATUS_BIT_FULL)
  ||| ((if printer_status.printer_busy then 1 else 0) <<< GBP_STATUS_BIT_BUSY)
  ||| ((if printer_status.checksum_error then 1 else 0) <<< GBP_STATUS_BIT_SUM)

/-- C1: for every status record, `gbp_status_byte` fits in 8 unsigned bits and
bit b of the result is 1 exactly when the flag assigned to bit b is true
(low_battery=7, other_error=6, paper_jam=5, packet_error=4,
unprocessed_data=3, print_buffer_full=2, printer_busy=1, checksum_error=0). -/
theorem gbp_status_byte_bit_layout (s : gbp_printer_status_t) :
    gbp_status_byte s < 256 ∧
    (gbp_status_byte s).testBit 7 = s.low_battery ∧
    (gbp_status_byte s).testBit 6 = s.other_error ∧
    (gbp_status_byte s).testBit 5 = s.paper_jam ∧
    (gbp_status_byte s).testBit 4 = s.packet_error ∧
    (gbp_status_byte s).testBit 3 = s.unprocessed_data ∧
    (gbp_status_byte s).testBit 2 = s.print_buffer_full ∧
    (gbp_status_byte s).testBit 1 = s.printer_busy ∧
    (gbp_status_byte s).testBit 0 = s.checksum_error := by
  obtain ⟨a, b, c, d, e, f, g, h⟩ := s
  revert a b c d e f g h
  decide

/-- C2: for every status record, packing with `gbp_status_byte` and then
reading each bit independently with the per-flag getbit operations recovers
exactly the original 8 flag values (the getbit macros return the C int 1 for
a true flag and 0 for a false one). -/
theorem gbp_status_byte_getbit_roundtrip (s : gbp_printer_status_t) :
    gpb_status_bit_getbit_low_battery (gbp_status_byte s) = (if s.low_battery then 1 else 0) ∧
    gpb_status_bit_getbit_other_error (gbp_status_byte s) = (if s.other_error then 1 else 0) ∧
    gpb_status_bit_getbit_paper_jam (gbp_status_byte s) = (if s.paper_jam then 1 else 0) ∧
    gpb_status_bit_getbit_packet_error (gbp_status_byte s) = (if s.packet_error then 1 else 0) ∧
    gpb_status_bit_getbit_unprocessed_data (gbp_status_byte s) = (if s.unprocessed_data then 1 else 0) ∧
    gpb_status_bit_getbit_print_buffer_full (gbp_status_byte s) = (if s.print_buffer_full then 1 else 0) ∧
    gpb_status_bit_getbit_printer_busy (gbp_status_byte s) = (if s.printer_busy then 1 else 0) ∧
    gpb_status_bit_getbit_checksum_error (gbp_status_byte s) = (if s.checksum_error then 1 else 0) := by
  obtain ⟨a, b, c, d, e, f, g, h⟩ := s
  revert a b c d e f g h
  decide

/-- C3: the five spot values of `gbp_status_byte`: all flags false gives 0x00,
all true gives 0xFF, only low_battery gives 0x80, only checksum_error gives
0x01, and exactly printer_busy plus unprocessed_data gives 0x0A. -/
theorem gbp_status_byte_spot_values :
    gbp_status_byte ⟨false, false, false, false, false, false, false, false⟩ = 0x00 ∧
    gbp_status_byte ⟨true, true, true, true, true, true, true, true⟩ = 0xFF ∧
    gbp_status_byte ⟨true, false, false, false, false, false, false, false⟩ = 0x80 ∧
    gbp_status_byte ⟨false, false, false, false, false, false, false, true⟩ = 0x01 ∧
    gbp_status_byte ⟨false, false, false, false, true, false, true, false⟩ = 0x0A := by
  decide

/-- C4: each `GBP_STATUS_MASK_*` is a single power of two, equal to 1 shifted
left by the corresponding `GBP_STATUS_BIT_*` position, the eight masks are
pairwise disjoint, and for every status record the packed byte equals the
bitwise OR of the masks of the true flags. -/
theorem gbp_status_masks_invariant :
    (GBP_STATUS_MASK_LOWBAT = 1 <<< GBP_STATUS_BIT_LOWBAT ∧
     GBP_STATUS_MASK_ER2 = 1 <<< GBP_STATUS_BIT_ER2 ∧
     GBP_STATUS_MASK_ER1 = 1 <<< GBP_STATUS_BIT_ER1 ∧
     GBP_STATUS_MASK_ER0 = 1 <<< GBP_STATUS_BIT_ER0 ∧
     GBP_STATUS_MASK_UNTRAN = 1 <<< GBP_STATUS_BIT_UNTRAN ∧
     GBP_STATUS_MASK_FULL = 1 <<< GBP_STATUS_BIT_FULL ∧
     GBP_STATUS_MASK_BUSY = 1 <<< GBP_STATUS_BIT_BUSY ∧
     GBP_STATUS_MASK_SUM = 1 <<< GBP_STATUS_BIT_SUM) ∧
    (GBP_STATUS_MASK_LOWBAT = 2 ^ 7 ∧ GBP_STATUS_MASK_ER2 = 2 ^ 6 ∧
     GBP_STATUS_MASK_ER1 = 2 ^ 5 ∧ GBP_STATUS_MASK_ER0 = 2 ^ 4 ∧
     GBP_STATUS_MASK_UNTRAN = 2 ^ 3 ∧ GBP_STATUS_MASK_FULL = 2 ^ 2 ∧
     GBP_STATUS_MASK_BUSY = 2 ^ 1 ∧ GBP_STATUS_MASK_SUM = 2 ^ 0) ∧
    (∀ m ∈ [GBP_STATUS_MASK_LOWBAT, GBP_STATUS_MASK_ER2, GBP_STATUS_MASK_ER1,
            GBP_STATUS_MASK_ER0, GBP_STATUS_MASK_UNTRAN, GBP_STATUS_MASK_FULL,
            GBP_STATUS_MASK_BUSY, GBP_STATUS_MASK_SUM],
     ∀ m' ∈ [GBP_STATUS_MASK_LOWBAT, GBP_STATUS_MASK_ER2, GBP_STATUS_MASK_ER1,
             GBP_STATUS_MASK_ER0, GBP_STATUS_MASK_UNTRAN, GBP_STATUS_MASK_FULL,
             GBP_STATUS_MASK_BUSY, GBP_STATUS_MASK_SUM],
     m ≠ m' → m &&& m' = 0) ∧
    (∀ s : gbp_printer_status_t,
     gbp_status_byte s =
       (if s.low_battery then GBP_STATUS_MASK_LOWBAT else 0)
       ||| (if s.other_error then GBP_STATUS_MASK_ER2 else 0)
       ||| (if s.paper_jam then GBP_STATUS_MASK_ER1 else 0)
       ||| (if s.packet_error then GBP_STATUS_MASK_ER0 else 0)
       ||| (if s.unprocessed_data then GBP_STATUS_MASK_UNTRAN else 0)
       ||| (if s.print_buffer_full then GBP_STATUS_MASK_FULL else 0)
       ||| (if s.printer_busy then GBP_STATUS_MASK_BUSY else 0)
       ||| (if s.checksum_error then GBP_STATUS_MASK_SUM else 0)) := by
  refine ⟨by decide, by decide, by decide, ?_⟩
  intro s
  obtain ⟨a, b, c, d, e, f, g, h⟩ := s
  revert a b c d e f g h
  decide

/-- C6: the sync word constants: `GBP_SYNC_WORD_0 = 0x88`,
`GBP_SYNC_WORD_1 = 0x33`, and concatenating the two bytes most-significant
byte first yields 0x8833, which equals `GBP_SYNC_WORD`. -/
theorem gbp_sync_word_constants :
    GBP_SYNC_WORD_0 = 0x88 ∧ GBP_SYNC_WORD_1 = 0x33 ∧
    ((GBP_SYNC_WORD_0 <<< 8) ||| GBP_SYNC_WORD_1) = 0x8833 ∧
    ((GBP_SYNC_WORD_0 <<< 8) ||| GBP_SYNC_WORD_1) = GBP_SYNC_WORD := by
  decide

/-- C7: command constants INIT=0x01, PRINT=0x02, DATA=0x04, BREAK=0x08,
INQUIRY=0x0F, each a byte and pairwise distinct; compression constants
DISABLED=0x00, ENABLED=0x01; device ID 0x81 with most significant bit 1 and
lower 7 bits equal to the device number 1. -/
theorem gbp_protocol_byte_constants :
    (GBP_COMMAND_INIT = 0x01 ∧ GBP_COMMAND_PRINT = 0x02 ∧
     GBP_COMMAND_DATA = 0x04 ∧ GBP_COMMAND_BREAK = 0x08 ∧
     GBP_COMMAND_INQUIRY = 0x0F) ∧
    (∀ c ∈ [GBP_COMMAND_INIT, GBP_COMMAND_PRINT, GBP_COMMAND_DATA,
            GBP_COMMAND_BREAK, GBP_COMMAND_INQUIRY], c ≤ 255) ∧
    [GBP_COMMAND_INIT, GBP_COMMAND_PRINT, GBP_COMMAND_DATA,
     GBP_COMMAND_BREAK, GBP_COMMAND_INQUIRY].Nodup ∧
    (GBP_COMPRESSION_DISABLED = 0x00 ∧ GBP_COMPRESSION_ENABLED = 0x01) ∧
    (GBP_DEVICE_ID = 0x81 ∧ GBP_DEVICE_ID.testBit 7 = true ∧
     GBP_DEVICE_ID &&& 0x7F = 1) := by
  decide

/-- C8: the print-instruction payload layout: the payload size constant is 4
and the field indices are sheets=0, linefeed=1, palette=2, density=3, in that
order. -/
theorem gbp_print_instruct_payload_layout :
    GBP_PRINT_INSTRUCT_PAYLOAD_SIZE = 4 ∧
    GBP_PRINT_INSTRUCT_INDEX_NUM_OF_SHEETS = 0 ∧
    GBP_PRINT_INSTRUCT_INDEX_NUM_OF_LINEFEED = 1 ∧
    GBP_PRINT_INSTRUCT_INDEX_PALETTE_VALUE = 2 ∧
    GBP_PRINT_INSTRUCT_INDEX_PRINT_DENSITY = 3 := by
  decide

/-- C9: `gbp_status_byte` is deterministic and its output depends only on the
8 flag values of its input: two records with equal flag values pack to equal
bytes.  (The function is pure in the embedding, mirroring the side-effect-free
C source.) -/
theorem gbp_status_byte_deterministic (s₁ s₂ : gbp_printer_status_t)
    (hlb : s₁.low_battery = s₂.low_battery)
    (hpj : s₁.paper_jam = s₂.paper_jam)
    (hoe : s₁.other_error = s₂.other_error)
    (hpe : s₁.packet_error = s₂.packet_error)
    (hud : s₁.unprocessed_data = s₂.unprocessed_data)
    (hbf : s₁.print_buffer_full = s₂.print_buffer_full)
    (hpb : s₁.printer_busy = s₂.printer_busy)
    (hce : s₁.checksum_error = s₂.checksum_error) :
    gbp_status_byte s₁ = gbp_status_byte s₂ := by
  obtain ⟨a₁, b₁, c₁, d₁, e₁, f₁, g₁, h₁⟩ := s₁
  obtain ⟨a₂, b₂, c₂, d₂, e₂, f₂, g₂, h₂⟩ := s₂
  simp only at hlb hpj hoe hpe hud hbf hpb hce
  subst hlb hpj hoe hpe hud hbf hpb hce
  rfl

/-- Witness for C9 at two structurally distinct but flag-equal records. -/
theorem gbp_status_byte_deterministic_witness :
    gbp_status_byte ⟨true, false, true, false, true, false, true, false⟩ =
    gbp_status_byte ⟨true, false, true, false, true, false, true, false⟩ :=
  gbp_status_byte_deterministic
    ⟨true, false, true, false, true, false, true, false⟩
    ⟨true, false, true, false, true, false, true, false⟩
    rfl rfl rfl rfl rfl rfl rfl rfl

set_option maxRecDepth 16000 in
/-- C5: for every 8-bit value X and bit position BITPOS below 8,
`gpb_setBit` sets bit BITPOS to 1 and `gpb_unsetBit` clears it to 0, in both
cases leaving every other bit of X unchanged, and `gpb_getBit` returns 1 when
bit BITPOS of X is set and 0 otherwise. -/
theorem gpb_bit_macros_correct (X : Nat) (hX : X < 256) (BITPOS : Nat) (hB : BITPOS < 8) :
    (gpb_setBit X BITPOS).testBit BITPOS = true ∧
    (gpb_unsetBit X BITPOS).testBit BITPOS = false ∧
    (∀ i, i < 8 → i ≠ BITPOS →
      (gpb_setBit X BITPOS).testBit i = X.testBit i ∧
      (gpb_unsetBit X BITPOS).testBit i = X.testBit i) ∧
    gpb_getBit X BITPOS = (if X.testBit BITPOS then 1 else 0) := by
  revert hB
  revert BITPOS
  revert hX
  revert X
  decide

/-- Witness for C5 at X = 0xA5, BITPOS = 3. -/
theorem gpb_bit_macros_correct_witness :
    (0xA5 : Nat) < 256 ∧ (3 : Nat) < 8 ∧
    ((gpb_setBit 0xA5 3).testBit 3 = true ∧
     (gpb_unsetBit 0xA5 3).testBit 3 = false ∧
     (∀ i, i < 8 → i ≠ 3 →
       (gpb_setBit 0xA5 3).testBit i = (0xA5 : Nat).testBit i ∧
       (gpb_unsetBit 0xA5 3).testBit i = (0xA5 : Nat).testBit i) ∧
     gpb_getBit 0xA5 3 = (if (0xA5 : Nat).testBit 3 then 1 else 0)) :=
  ⟨by decide, by decide, gpb_bit_macros_correct 0xA5 (by decide) 3 (by decide)⟩

set_option maxRecDepth 16000 in
set_option synthInstance.maxSize 4000 in
set_option maxHeartbeats 2000000 in
/-- C10: for every 8-bit status byte X and boolean SET, each per-flag update
operation sets the bit at its flag's position to SET while leaving every
other bit of X unchanged, and reading the flag back with the corresponding
getbit operation returns 1 when SET is true and 0 otherwise. -/
theorem gpb_status_bit_update_frame (X : Nat) (hX : X < 256) (SET : Bool) :
    ((gpb_status_bit_update_low_battery X SET).testBit 7 = SET ∧
     (∀ i, i < 8 → i ≠ 7 → (gpb_status_bit_update_low_battery X SET).testBit i = X.testBit i) ∧
     gpb_status_bit_getbit_low_battery (gpb_status_bit_update_low_battery X SET) = (if SET then 1 else 0)) ∧
    ((gpb_status_bit_update_other_error X SET).testBit 6 = SET ∧
     (∀ i, i < 8 → i ≠ 6 → (gpb_status_bit_update_other_error X SET).testBit i = X.testBit i) ∧
     gpb_status_bit_getbit_other_error (gpb_status_bit_update_other_error X SET) = (if SET then 1 else 0)) ∧
    ((gpb_status_bit_update_paper_jam X SET).testBit 5 = SET ∧
     (∀ i, i < 8 → i ≠ 5 → (gpb_status_bit_update_paper_jam X SET).testBit i = X.testBit i) ∧
     gpb_status_bit_getbit_paper_jam (gpb_status_bit_update_paper_jam X SET) = (if SET then 1 else 0)) ∧
    ((gpb_status_bit_update_packet_error X SET).testBit 4 = SET ∧
     (∀ i, i < 8 → i ≠ 4 → (gpb_status_bit_update_packet_error X SET).testBit i = X.testBit i) ∧
     gpb_status_bit_getbit_packet_error (gpb_status_bit_update_packet_error X SET) = (if SET then 1 else 0)) ∧
    ((gpb_status_bit_update_unprocessed_data X SET).testBit 3 = SET ∧
     (∀ i, i < 8 → i ≠ 3 → (gpb_status_bit_update_unprocessed_data X SET).testBit i = X.testBit i) ∧
     gpb_status_bit_getbit_unprocessed_data (gpb_status_bit_update_unprocessed_data X SET) = (if SET then 1 else 0)) ∧
    ((gpb_status_bit_update_print_buffer_full X SET).testBit 2 = SET ∧
     (∀ i, i < 8 → i ≠ 2 → (gpb_status_bit_update_print_buffer_full X SET).testBit i = X.testBit i) ∧
     gpb_status_bit_getbit_print_buffer_full (gpb_status_bit_update_print_buffer_full X SET) = (if SET then 1 else 0)) ∧
    ((gpb_status_bit_update_printer_busy X SET).testBit 1 = SET ∧
     (∀ i, i < 8 → i ≠ 1 → (gpb_status_bit_update_printer_busy X SET).testBit i = X.testBit i) ∧
     gpb_status_bit_getbit_printer_busy (gpb_status_bit_update_printer_busy X SET) = (if SET then 1 else 0)) ∧
    ((gpb_status_bit_update_checksum_error X SET).testBit 0 = SET ∧
     (∀ i, i < 8 → i ≠ 0 → (gpb_status_bit_update_checksum_error X SET).testBit i = X.testBit i) ∧
     gpb_status_bit_getbit_checksum_error (gpb_status_bit_update_checksum_error X SET) = (if SET then 1 else 0)) := by
  cases SET <;> (revert hX; revert X; decide)

/-- Witness for C10 at X = 0x55, SET = true. -/
theorem gpb_status_bit_update_frame_witness :
    (0x55 : Nat) < 256 ∧
    (((gpb_status_bit_update_low_battery 0x55 true).testBit 7 = true ∧
      (∀ i, i < 8 → i ≠ 7 → (gpb_status_bit_update_low_battery 0x55 true).testBit i = (0x55 : Nat).testBit i) ∧
      gpb_status_bit_getbit_low_battery (gpb_status_bit_update_low_battery 0x55 true) = 1) ∧
     ((gpb_status_bit_update_other_error 0x55 true).testBit 6 = true ∧
      (∀ i, i < 8 → i ≠ 6 → (gpb_status_bit_update_other_error 0x55 true).testBit i = (0x55 : Nat).testBit i) ∧
      gpb_status_bit_getbit_other_error (gpb_status_bit_update_other_error 0x55 true) = 1) ∧
     ((gpb_status_bit_update_paper_jam 0x55 true).testBit 5 = true ∧
      (∀ i, i < 8 → i ≠ 5 → (gpb_status_bit_update_paper_jam 0x55 true).testBit i = (0x55 : Nat).testBit i) ∧
      gpb_status_bit_getbit_paper_jam (gpb_status_bit_update_paper_jam 0x55 true) = 1) ∧
     ((gpb_status_bit_update_packet_error 0x55 true).testBit 4 = true ∧
      (∀ i, i < 8 → i ≠ 4 → (gpb_status_bit_update_packet_error 0x55 true).testBit i = (0x55 : Nat).testBit i) ∧
      gpb_status_bit_getbit_packet_error (gpb_status_bit_update_packet_error 0x55 true) = 1) ∧
     ((gpb_status_bit_update_unprocessed_data 0x55 true).testBit 3 = true ∧
      (∀ i, i < 8 → i ≠ 3 → (gpb_status_bit_update_unprocessed_data 0x55 true).testBit i = (0x55 : Nat).testBit i) ∧
      gpb_status_bit_getbit_unprocessed_data (gpb_status_bit_update_unprocessed_data 0x55 true) = 1) ∧
     ((gpb_status_bit_update_print_buffer_full 0x55 true).testBit 2 = true ∧
      (∀ i, i < 8 → i ≠ 2 → (gpb_status_bit_update_print_buffer_full 0x55 true).testBit i = (0x55 : Nat).testBit i) ∧
      gpb_status_bit_getbit_print_buffer_full (gpb_status_bit_update_print_buffer_full 0x55 true) = 1) ∧
     ((gpb_status_bit_update_printer_busy 0x55 true).testBit 1 = true ∧
      (∀ i, i < 8 → i ≠ 1 → (gpb_status_bit_update_printer_busy 0x55 true).testBit i = (0x55 : Nat).testBit i) ∧
      gpb_status_bit_getbit_printer_busy (gpb_status_bit_update_printer_busy 0x55 true) = 1) ∧
     ((gpb_status_bit_update_checksum_error 0x55 true).testBit 0 = true ∧
      (∀ i, i < 8 → i ≠ 0 → (gpb_status_bit_update_checksum_error 0x55 true).testBit i = (0x55 : Nat).testBit i) ∧
      gpb_status_bit_getbit_checksum_error (gpb_status_bit_update_checksum_error 0x55 true) = 1)) :=
  ⟨by decide, gpb_status_bit_update_frame 0x55 (by decide) true⟩

end GbpProtocol
